import Mathlib

/-!
Verification of the lighter / lightningbringer / pytorchito glue code.

Shallow embedding of:
  * `LighterBaseWriter` (src/lighter/callbacks/writer/base.py):
    `__init__`, `setup`, `on_predict_batch_end`;
  * `System` (src/lightningbringer/system.py):
    the reshape / loss / sigmoid / logging slice of `_step`,
    `_log_by_type`, and `setup`.
Machine-level concerns (tensors, torch dtypes) are abstracted to the data the
control flow actually inspects: shape lists, real-valued prediction lists,
booleans for dataset presence, strings for stage and format names.
-/

namespace Spec2Proof

/-! ### LighterBaseWriter: prediction-ID assignment

`on_predict_batch_end` does, when `outputs["id"] is None`:
    batch_size = len(outputs["pred"])
    world_size = trainer.world_size
    outputs["id"] = list(range(self._pred_counter,
                               self._pred_counter + batch_size * world_size,
                               world_size))
    self._pred_counter += batch_size * world_size
-/

/-- Python `range(start, stop, step)` for a positive `step`:
`⌈(stop - start) / step⌉` elements `start, start + step, ...`. -/
def pyRange (start stop step : Nat) : List Nat :=
  (List.range ((stop - start + step - 1) / step)).map (fun i => start + i * step)

/-- The ID-generation branch of `LighterBaseWriter.on_predict_batch_end`:
given the trainer world size, the current `_pred_counter`, the `outputs["id"]`
field and the batch size (`len(outputs["pred"])`), return the assigned
`outputs["id"]` list together with the updated `_pred_counter`. -/
def onPredictBatchEnd (worldSize counter : Nat) (ids : Option (List Nat))
    (batchSize : Nat) : List Nat × Nat :=
  match ids with
  | none => (pyRange counter (counter + batchSize * worldSize) worldSize,
             counter + batchSize * worldSize)
  | some l => (l, counter)

/-- IDs a process emits over a sequence of prediction batches (given by their
sizes), all without explicit IDs, threading `_pred_counter` through. -/
def runPredictBatches (worldSize : Nat) : Nat → List Nat → List Nat
  | _, [] => []
  | counter, b :: bs =>
    (onPredictBatchEnd worldSize counter none b).1 ++
      runPredictBatches worldSize (onPredictBatchEnd worldSize counter none b).2 bs

/-- `LighterBaseWriter.setup` seeds the counter:
`torch.distributed.get_rank() if trainer.world_size > 1 else 0`. -/
def seedCounter (worldSize rank : Nat) : Nat :=
  if 1 < worldSize then rank else 0

/-- All IDs assigned by one process of the given rank across its batches. -/
def processIds (rank worldSize : Nat) (batchSizes : List Nat) : List Nat :=
  runPredictBatches worldSize (seedCounter worldSize rank) batchSizes

/-! ### LighterBaseWriter: `__init__` directory handling and `setup` -/

/-- `__init__` stores `self.directory = Path(directory)` — the base path as
given.  (The class docstring announces a date-time sub-directory; `datetime`
is imported but never used, and no such sub-directory is ever built.) -/
def initWriterDirectory (directory : String) : String := directory

/-- Writer state relevant to `setup`: `self.directory` and `self._pred_counter`
(`none` after `__init__`). -/
structure WriterState where
  directory : String
  predCounter : Option Nat
deriving DecidableEq, Repr

/-- One process's view of the trainer during `setup`:
world size, DDP rank, `trainer.is_global_zero`, the directory value broadcast
from rank 0, and whether that directory is visible to this process after the
barrier (rank 0 always sees it, having just created it; another rank sees it
exactly when it shares storage with rank 0 or the path already existed). -/
structure PredictTrainer where
  worldSize : Nat
  rank : Nat
  isGlobalZero : Bool
  broadcastDir : String
  dirExistsAfterBarrier : Bool
deriving DecidableEq, Repr

/-- Result of `LighterBaseWriter.setup`: the new writer state, whether
`strategy.broadcast` ran, whether this process called `mkdir`, and the
`RuntimeError` message if one was raised. -/
structure SetupOutcome where
  state : WriterState
  broadcastCalled : Bool
  mkdirCalled : Bool
  raisedError : Option String
deriving DecidableEq, Repr

/-- `LighterBaseWriter.setup`: returns immediately unless `stage == "predict"`;
otherwise seeds `_pred_counter` from the rank, broadcasts the directory from
rank 0, creates it only on the global-zero process, barriers, and raises a
`RuntimeError` if the directory is still not visible. -/
def writerSetup (stage : String) (t : PredictTrainer) (st : WriterState) :
    SetupOutcome :=
  if stage ≠ "predict" then ⟨st, false, false, none⟩
  else
    let counter : Nat := seedCounter t.worldSize t.rank
    let st1 : WriterState := ⟨t.broadcastDir, some counter⟩
    let existsAfter : Bool := if t.isGlobalZero then true else t.dirExistsAfterBarrier
    if existsAfter then ⟨st1, true, t.isGlobalZero, none⟩
    else ⟨st1, true, t.isGlobalZero,
          some ("Rank " ++ toString t.rank ++
            " does not share storage with rank 0. Ensure nodes have common storage access.")⟩

/-! ### Theorems: C5, C6, C7, C8 -/

/-- C5: for every stage other than "predict", `LighterBaseWriter.setup` returns
without modifying any state — the directory is neither broadcast nor created
and the writer state (in particular `_pred_counter`) is returned unchanged. -/
theorem writer_setup_non_predict_noop (stage : String) (t : PredictTrainer)
    (st : WriterState) (h : stage ≠ "predict") :
    writerSetup stage t st = ⟨st, false, false, none⟩ := by
  simp [writerSetup, h]

theorem writer_setup_non_predict_noop_witness :
    writerSetup "fit" ⟨2, 1, false, "out", false⟩ ⟨"out", none⟩ =
      ⟨⟨"out", none⟩, false, false, none⟩ :=
  writer_setup_non_predict_noop "fit" ⟨2, 1, false, "out", false⟩ ⟨"out", none⟩
    (by decide)

/-- C6: during a "predict"-stage `setup`, a non-coordinating process that does
not see the broadcast directory after the barrier raises the fatal
storage-access `RuntimeError`, and `mkdir` is called exactly on the
coordinating (global-zero) process. -/
theorem writer_setup_shared_storage_error (t tz : PredictTrainer)
    (st : WriterState) (hz : t.isGlobalZero = false)
    (he : t.dirExistsAfterBarrier = false) (hzz : tz.isGlobalZero = true) :
    (writerSetup "predict" t st).raisedError =
      some ("Rank " ++ toString t.rank ++
        " does not share storage with rank 0. Ensure nodes have common storage access.") ∧
    (writerSetup "predict" t st).mkdirCalled = false ∧
    (writerSetup "predict" tz st).mkdirCalled = true := by
  refine ⟨?_, ?_, ?_⟩ <;> simp [writerSetup, hz, he, hzz]

theorem writer_setup_shared_storage_error_witness :
    (writerSetup "predict" ⟨2, 1, false, "out", false⟩ ⟨"out", none⟩).raisedError =
      some ("Rank " ++ toString (1 : Nat) ++
        " does not share storage with rank 0. Ensure nodes have common storage access.") ∧
    (writerSetup "predict" ⟨2, 1, false, "out", false⟩ ⟨"out", none⟩).mkdirCalled = false ∧
    (writerSetup "predict" ⟨2, 0, true, "out", true⟩ ⟨"out", none⟩).mkdirCalled = true :=
  writer_setup_shared_storage_error ⟨2, 1, false, "out", false⟩
    ⟨2, 0, true, "out", true⟩ ⟨"out", none⟩ rfl rfl rfl

/-- C7 (code bug): the writer never creates a dated sub-directory.  With base
path "predictions", `__init__` stores exactly "predictions" and a
single-process "predict" `setup` creates and keeps that very path as the
output directory — no date-time component is ever appended, contradicting the
class docstring. -/
theorem writer_directory_is_base_path :
    initWriterDirectory "predictions" = "predictions" ∧
    (writerSetup "predict" ⟨1, 0, true, initWriterDirectory "predictions", true⟩
        ⟨initWriterDirectory "predictions", none⟩).state.directory = "predictions" ∧
    (writerSetup "predict" ⟨1, 0, true, initWriterDirectory "predictions", true⟩
        ⟨initWriterDirectory "predictions", none⟩).mkdirCalled = true := by
  refine ⟨rfl, rfl, rfl⟩

/-- C8: in a single-process run (world size 1) with batch size 4 and no
explicit IDs, the writer assigns IDs `[0, 1, 2, 3]` to the first batch and
`[4, 5, 6, 7]` to the second, threading the counter. -/
theorem single_process_batch_ids :
    onPredictBatchEnd 1 0 none 4 = ([0, 1, 2, 3], 4) ∧
    onPredictBatchEnd 1 4 none 4 = ([4, 5, 6, 7], 8) := by
  constructor <;> rfl

/-! ### System._step: the reshape line

    if len(target.shape) == 1 and len(pred.shape) == 2 and pred.shape[1] == 1:
        pred = pred.flatten()
Shapes are lists of dimension sizes; `flatten` yields a rank-1 tensor holding
all elements, i.e. shape `[product of dims]`. -/

/-- The prediction-shape adjustment in `System._step`. -/
def reshapePred (targetShape predShape : List Nat) : List Nat :=
  if targetShape.length = 1 ∧ predShape.length = 2 ∧ predShape.getD 1 0 = 1 then
    [predShape.prod]
  else predShape

/-! ### System._step: loss before sigmoid, sigmoid before metrics

    loss = None if mode == "test" else self.criterion(pred, ...)
    if isinstance(self.criterion, torch.nn.BCEWithLogitsLoss):
        pred = torch.sigmoid(pred)
    step_metrics = {get_name(m): m(pred, target) for m in metrics}
-/

/-- `torch.sigmoid`, elementwise logistic function over the reals. -/
noncomputable def sigmoid (x : ℝ) : ℝ := 1 / (1 + Real.exp (-x))

/-- The values `System._step` feeds to the criterion and to the metrics:
`lossInput` is the prediction handed to `self.criterion` (`none` in test
mode), `metricInput` the prediction handed to every metric and to logging. -/
structure StepLossMetric where
  lossInput : Option (List ℝ)
  metricInput : List ℝ

/-- The loss / sigmoid / metric slice of `System._step`: predictions are a
list of scalars, `isBCEWithLogitsLoss` reflects the
`isinstance(self.criterion, torch.nn.BCEWithLogitsLoss)` test. -/
noncomputable def stepLossMetricInputs (isBCEWithLogitsLoss : Bool)
    (mode : String) (pred : List ℝ) : StepLossMetric :=
  let loss := if mode = "test" then none else some pred
  let pred2 := if isBCEWithLogitsLoss then pred.map sigmoid else pred
  ⟨loss, pred2⟩

/-! ### System logging: `_log_by_type` and the `_step` dispatch

`_step` runs, for key in ["input", "target", "pred"]:
    if data_type := getattr(self, f"_log_\x7bkey\x7d_as") is not None:
        self._log_by_type(name, eval(key), data_type, ...)
The walrus operator binds `data_type` to the WHOLE comparison
`getattr(...) is not None`, a bool — not to the attribute string. -/

/-- A Python value that can reach `_log_by_type`'s `data_type` parameter:
either a string or a bool. -/
inductive PyLogType where
  | pstr : String → PyLogType
  | pbool : Bool → PyLogType
deriving DecidableEq, Repr

/-- What `_log_by_type` does, by its `data_type` argument: `self.log` for
"scalar", image logging for "image_single" / "image_batch", otherwise
`logger.error` followed by `sys.exit()`. -/
inductive LogAction where
  | loggedScalar
  | loggedImage
  | fatalExit
deriving DecidableEq, Repr

/-- `System._log_by_type`, keyed on the branch taken. -/
def logByType (dataType : PyLogType) : LogAction :=
  if dataType = PyLogType.pstr "scalar" then LogAction.loggedScalar
  else if dataType = PyLogType.pstr "image_single" ∨
      dataType = PyLogType.pstr "image_batch" then LogAction.loggedImage
  else LogAction.fatalExit

/-- The `_step` dispatch for one of the input/target/pred selectors:
`selector` is the configured `_log_<key>_as` attribute; the walrus expression
assigns `data_type` the bool `selector is not None`, and `_log_by_type` is
called with that bool whenever it is true.  Returns `none` when no logging
call is made. -/
def stepLogSelector (selector : Option String) : Option LogAction :=
  let dataType := PyLogType.pbool selector.isSome
  if selector.isSome then some (logByType dataType) else none

/-! ### System.setup -/

/-- Which datasets were passed to `System.__init__` (present vs `None`). -/
structure SystemDatasets where
  hasTrainDataset : Bool
  hasValDataset : Bool
  hasTestDataset : Bool
deriving DecidableEq, Repr

/-- How `System.setup` can abort: an uncaught `KeyError` from the
`dataset_required_by_stage[stage]` lookup, or the logged-error `sys.exit()`
for a missing dataset. -/
inductive SystemSetupError where
  | keyError : String → SystemSetupError
  | sysExit : SystemSetupError
deriving DecidableEq, Repr

/-- Which stage-specific Lightning methods `System.setup` binds. -/
structure StageMethods where
  trainingStepBound : Bool
  validationStepBound : Bool
  testStepBound : Bool
deriving DecidableEq, Repr

/-- The `dataset_required_by_stage` dict of `System.setup`, as a partial
lookup: `none` models a key whose access raises `KeyError`. -/
def datasetRequiredByStage (stage : String) : Option String :=
  if stage = "fit" then some "train_dataset"
  else if stage = "validate" then some "val_dataset"
  else if stage = "test" then some "test_dataset"
  else none

/-- `getattr(self, dataset_name) is None` test of `System.setup`. -/
def datasetPresent (ds : SystemDatasets) (name : String) : Bool :=
  if name = "train_dataset" then ds.hasTrainDataset
  else if name = "val_dataset" then ds.hasValDataset
  else ds.hasTestDataset

/-- `System.setup`: looks the stage up in `dataset_required_by_stage`
(raising `KeyError` on any other stage), exits if the required dataset is
`None`, then binds the stage-specific dataloader/step methods. -/
def systemSetup (stage : String) (ds : SystemDatasets) :
    Except SystemSetupError StageMethods :=
  match datasetRequiredByStage stage with
  | none => Except.error (SystemSetupError.keyError stage)
  | some name =>
    if datasetPresent ds name = false then Except.error SystemSetupError.sysExit
    else Except.ok
      ⟨stage == "fit" || stage == "tune",
       stage == "validate" || ((stage == "fit" || stage == "tune") && ds.hasValDataset),
       stage == "test"⟩

/-! ### LighterBaseWriter.__init__: writer-argument dispatch -/

/-- `LighterBaseWriter.__init__`'s handling of the `writer` argument, with the
subclass's `writers` dict as an association list over an arbitrary type `φ` of
writer functions.  `Sum.inl` is a string format name, `Sum.inr` a callable;
an unregistered string raises `ValueError`, reported with the offending
format name. -/
def initWriter {φ : Type} (writers : List (String × φ)) :
    Sum String φ → Except String φ
  | Sum.inl s =>
    match writers.lookup s with
    | some f => Except.ok f
    | none => Except.error s
  | Sum.inr f => Except.ok f

/-! ### C1: ID striding — arithmetic progression and cross-process distinctness -/

/-- `range(c, c + b*W, W)` has exactly `b` elements when the step `W` is
positive: the `i`-th is `c + i*W`. -/
theorem pyRange_stride (c b W : Nat) (hW : 1 ≤ W) :
    pyRange c (c + b * W) W = (List.range b).map (fun i => c + i * W) := by
  unfold pyRange
  have hcount : (c + b * W - c + W - 1) / W = b := by
    rw [Nat.add_sub_cancel_left]
    have h1 : b * W + W - 1 = W * b + (W - 1) := by
      rw [Nat.mul_comm]; omega
    rw [h1, Nat.mul_add_div (by omega), Nat.div_eq_of_lt (by omega)]
    omega
  rw [hcount]

/-- Running a sequence of batches from counter `c` yields exactly the IDs
`c, c + W, c + 2W, ...`, one per example over all batches. -/
theorem runPredictBatches_stride (W : Nat) (hW : 1 ≤ W) (bs : List Nat) :
    ∀ c, runPredictBatches W c bs =
      (List.range bs.sum).map (fun i => c + i * W) := by
  induction bs with
  | nil => intro c; rfl
  | cons b rest ih =>
    intro c
    show pyRange c (c + b * W) W ++ runPredictBatches W (c + b * W) rest = _
    rw [pyRange_stride c b W hW, ih (c + b * W), List.sum_cons, List.range_add,
      List.map_append, List.map_map]
    congr 1
    apply List.map_congr_left
    intro i _
    simp only [Function.comp_apply]
    ring

/-- The counter seed equals the rank whenever the rank is a valid rank. -/
theorem seedCounter_eq_rank (W r : Nat) (hr : r < W) : seedCounter W r = r := by
  unfold seedCounter
  split
  · rfl
  · omega

/-- Every ID a process of rank `r` assigns is congruent to `r` modulo the
world size. -/
theorem processIds_mod (W r : Nat) (hr : r < W) (bs : List Nat) (x : Nat)
    (hx : x ∈ processIds r W bs) : x % W = r := by
  have hW : 1 ≤ W := by omega
  unfold processIds at hx
  rw [seedCounter_eq_rank W r hr, runPredictBatches_stride W hW bs r] at hx
  rcases List.mem_map.mp hx with ⟨i, _, hix⟩
  rw [← hix, Nat.add_mul_mod_self_right, Nat.mod_eq_of_lt hr]

/-- C1: with world size `W ≥ 1` and distinct valid ranks `r ≠ r'`, the IDs a
process of rank `r` assigns over any sequence of auto-ID batches form the
arithmetic progression `r, r + W, r + 2W, ...` (one term per example), and no
ID of rank `r` coincides with any ID of rank `r'`. -/
theorem writer_ids_progression_and_distinct (W r r' : Nat) (hW : 1 ≤ W)
    (hr : r < W) (hr' : r' < W) (hne : r ≠ r') (bs bs' : List Nat) :
    processIds r W bs = (List.range bs.sum).map (fun i => r + i * W) ∧
    ∀ x ∈ processIds r W bs, ∀ y ∈ processIds r' W bs', x ≠ y := by
  constructor
  · unfold processIds
    rw [seedCounter_eq_rank W r hr, runPredictBatches_stride W hW bs r]
  · intro x hx y hy hxy
    have h1 := processIds_mod W r hr bs x hx
    have h2 := processIds_mod W r' hr' bs' y hy
    rw [hxy, h2] at h1
    exact hne h1.symm

theorem writer_ids_progression_and_distinct_witness :
    processIds 0 2 [2] = (List.range ([2] : List Nat).sum).map (fun i => 0 + i * 2) ∧
    ∀ x ∈ processIds 0 2 [2], ∀ y ∈ processIds 1 2 [2], x ≠ y :=
  writer_ids_progression_and_distinct 2 0 1 (by decide) (by decide) (by decide)
    (by decide) [2] [2]

/-! ### C2, C3, C4, C9, C10 -/

/-- C2 (code bug): configuring a supported logging type does not log — it
terminates the process.  With `_log_pred_as = "scalar"`, the `_step` dispatch
passes the bool `True` (the walrus-bound value of `... is not None`) as
`data_type`, so `_log_by_type` takes its unsupported-type branch and exits;
yet `_log_by_type` itself, handed the string "scalar", would have logged. -/
theorem step_logging_exits_on_scalar_selector :
    stepLogSelector (some "scalar") = some LogAction.fatalExit ∧
    logByType (PyLogType.pstr "scalar") = LogAction.loggedScalar ∧
    logByType (PyLogType.pstr "image_single") = LogAction.loggedImage ∧
    logByType (PyLogType.pstr "image_batch") = LogAction.loggedImage := by
  refine ⟨rfl, rfl, rfl, rfl⟩

/-- C3 (counterexample): target shape `(2,)` with prediction shape `(3, 1)` is
not of the form "target `(B,)`, prediction `(B, 1)`" (2 ≠ 3), so the claim
says the prediction is left unchanged — but the code flattens it to `(3,)`. -/
theorem reshape_counterexample :
    reshapePred [2] [3, 1] = [3] ∧ (2 : Nat) ≠ 3 := by
  refine ⟨rfl, by decide⟩

/-- C3 (amended): the prediction is flattened whenever the target has rank 1
and the prediction has rank 2 with second dimension 1 — the batch sizes need
not agree — and is left unchanged in every other case. -/
theorem reshape_flatten_amended (A B : Nat) (t p : List Nat)
    (h : ¬(t.length = 1 ∧ p.length = 2 ∧ p.getD 1 0 = 1)) :
    reshapePred [B] [A, 1] = [A] ∧ reshapePred t p = p := by
  constructor
  · simp [reshapePred]
  · unfold reshapePred
    rw [if_neg h]

theorem reshape_flatten_amended_witness :
    reshapePred [2] [3, 1] = [3] ∧ reshapePred [2, 2] [3, 1] = [3, 1] :=
  reshape_flatten_amended 3 2 [2, 2] [3, 1] (by decide)

/-- C4: with a `BCEWithLogitsLoss` criterion and outside test mode, the loss
is computed on the raw pre-sigmoid prediction, the metrics receive the
sigmoid of that prediction, and every metric input lies in `[0, 1]`. -/
theorem bce_sigmoid_postprocessing (mode : String) (pred : List ℝ)
    (hmode : mode ≠ "test") :
    (stepLossMetricInputs true mode pred).lossInput = some pred ∧
    (stepLossMetricInputs true mode pred).metricInput = pred.map sigmoid ∧
    ∀ x ∈ (stepLossMetricInputs true mode pred).metricInput, 0 ≤ x ∧ x ≤ 1 := by
  have hm : (stepLossMetricInputs true mode pred).metricInput = pred.map sigmoid := rfl
  refine ⟨by simp [stepLossMetricInputs, hmode], hm, ?_⟩
  intro x hx
  rw [hm] at hx
  rcases List.mem_map.mp hx with ⟨y, _, hy⟩
  have hexp : 0 < Real.exp (-y) := Real.exp_pos (-y)
  have hden : (0 : ℝ) < 1 + Real.exp (-y) := by linarith
  constructor
  · rw [← hy]
    unfold sigmoid
    positivity
  · rw [← hy]
    unfold sigmoid
    rw [div_le_one hden]
    linarith

theorem bce_sigmoid_postprocessing_witness :
    (stepLossMetricInputs true "train" [0]).lossInput = some [0] ∧
    (stepLossMetricInputs true "train" [0]).metricInput = ([0] : List ℝ).map sigmoid ∧
    ∀ x ∈ (stepLossMetricInputs true "train" [0]).metricInput, 0 ≤ x ∧ x ≤ 1 :=
  bce_sigmoid_postprocessing "train" [0] (by decide)

/-- C9: `System.setup` only recognises the stages "fit", "validate" and
"test": any other stage raises a `KeyError` from the
`dataset_required_by_stage` lookup before the missing-dataset exit check or
any method binding, whatever datasets are configured. -/
theorem system_setup_keyerror_on_unknown_stage (stage : String)
    (ds : SystemDatasets) (h1 : stage ≠ "fit") (h2 : stage ≠ "validate")
    (h3 : stage ≠ "test") :
    systemSetup stage ds = Except.error (SystemSetupError.keyError stage) := by
  unfold systemSetup datasetRequiredByStage
  simp [h1, h2, h3]

theorem system_setup_keyerror_on_unknown_stage_witness :
    systemSetup "predict" ⟨true, true, true⟩ =
      Except.error (SystemSetupError.keyError "predict") ∧
    systemSetup "tune" ⟨true, true, true⟩ =
      Except.error (SystemSetupError.keyError "tune") :=
  ⟨system_setup_keyerror_on_unknown_stage "predict" ⟨true, true, true⟩
      (by decide) (by decide) (by decide),
   system_setup_keyerror_on_unknown_stage "tune" ⟨true, true, true⟩
      (by decide) (by decide) (by decide)⟩

/-- C10: `LighterBaseWriter.__init__` raises `ValueError` for a string writer
not registered in `writers`, stores the mapped function for a registered
string, and stores a non-string writer argument unchanged. -/
theorem init_writer_dispatch {φ : Type} (writers : List (String × φ))
    (s : String) (f : φ) :
    (writers.lookup s = none → initWriter writers (Sum.inl s) = Except.error s) ∧
    (∀ g, writers.lookup s = some g → initWriter writers (Sum.inl s) = Except.ok g) ∧
    initWriter writers (Sum.inr f) = Except.ok f := by
  refine ⟨?_, ?_, rfl⟩
  · intro h
    simp [initWriter, h]
  · intro g h
    simp [initWriter, h]

theorem init_writer_dispatch_witness :
    initWriter [("nifti", (7 : Nat))] (Sum.inl "png") = Except.error "png" ∧
    initWriter [("nifti", (7 : Nat))] (Sum.inl "nifti") = Except.ok 7 ∧
    initWriter [("nifti", (7 : Nat))] (Sum.inr (5 : Nat)) = Except.ok 5 :=
  ⟨(init_writer_dispatch [("nifti", (7 : Nat))] "png" 0).1 (by decide),
   (init_writer_dispatch [("nifti", (7 : Nat))] "nifti" 0).2.1 7 (by decide),
   (init_writer_dispatch [("nifti", (7 : Nat))] "nifti" 5).2.2⟩

end Spec2Proof
